import Mathlib

/-!
A verification development for the DXIL shader-debugger interpreter
(`driver/shaders/dxil/dxil_debug.cpp`).  The relevant fragments of the
interpreter are shallowly embedded as executable Lean definitions, and the
behavioural properties of the interpreter are proved (or refuted) about
those definitions.  Machine integers are modelled as `Nat`/`Int` with
explicit two's-complement reinterpretation; 32-bit floats are modelled by a
small semantic type `F32` (NaN / signed infinity / finite rational value)
that is sufficient for the comparison and denormal-flushing behaviour under
study; raw memory is modelled as a list of bytes.
-/

namespace DXILDebug

/-- LLVM operation opcodes, as enumerated by the interpreter
(the case labels of `OperationFlushing` and `ThreadState::ExecuteInstruction`). -/
inductive Operation where
  | FAdd
  | FSub
  | FMul
  | FDiv
  | FRem
  | FPTrunc
  | FPExt
  | FOrdFalse
  | FOrdEqual
  | FOrdGreater
  | FOrdGreaterEqual
  | FOrdLess
  | FOrdLessEqual
  | FOrdNotEqual
  | FOrd
  | FUnord
  | FUnordEqual
  | FUnordGreater
  | FUnordGreaterEqual
  | FUnordLess
  | FUnordLessEqual
  | FUnordNotEqual
  | FOrdTrue
  | Trunc
  | SExt
  | ZExt
  | PtrToI
  | IToPtr
  | Bitcast
  | AddrSpaceCast
  | IEqual
  | INotEqual
  | UGreater
  | UGreaterEqual
  | ULess
  | ULessEqual
  | SGreater
  | SGreaterEqual
  | SLess
  | SLessEqual
  | FToU
  | FToS
  | UToF
  | SToF
  | NoOp
  | Call
  | ExtractVal
  | Ret
  | Unreachable
  | Alloca
  | GetElementPtr
  | Branch
  | Fence
  | Switch
  | Load
  | Store
  | Select
  | ExtractElement
  | InsertElement
  | ShuffleVector
  | InsertValue
  | Phi
  | CompareExchange
  | Add
  | Sub
  | Mul
  | UDiv
  | SDiv
  | URem
  | SRem
  | ShiftLeft
  | LogicalShiftRight
  | ArithShiftRight
  | And
  | Or
  | Xor
  | LoadAtomic
  | StoreAtomic
  | AtomicExchange
  | AtomicAdd
  | AtomicSub
  | AtomicAnd
  | AtomicNand
  | AtomicOr
  | AtomicXor
  | AtomicMax
  | AtomicMin
  | AtomicUMax
  | AtomicUMin
  deriving DecidableEq, Repr

/-- DXIL intrinsic opcodes (dx.op), as enumerated by the interpreter. -/
inductive DXOp where
  | Sample
  | SampleBias
  | SampleLevel
  | SampleGrad
  | SampleCmp
  | SampleCmpBias
  | SampleCmpLevel
  | SampleCmpGrad
  | SampleCmpLevelZero
  | TextureGather
  | TextureGatherCmp
  | TextureGatherRaw
  | CalculateLOD
  | DerivCoarseX
  | DerivCoarseY
  | DerivFineX
  | DerivFineY
  | EvalSampleIndex
  | FAbs
  | Cos
  | Sin
  | Tan
  | Acos
  | Asin
  | Atan
  | Hcos
  | Hsin
  | Htan
  | Exp
  | Frc
  | Log
  | Sqrt
  | Rsqrt
  | Round_ne
  | Round_ni
  | Round_pi
  | Round_z
  | FMax
  | FMin
  | FMad
  | Fma
  | Dot2
  | Dot3
  | Dot4
  | TempRegLoad
  | TempRegStore
  | MinPrecXRegLoad
  | MinPrecXRegStore
  | LoadInput
  | StoreOutput
  | Saturate
  | IsNaN
  | IsInf
  | IsFinite
  | IsNormal
  | Bfrev
  | Countbits
  | FirstbitLo
  | FirstbitHi
  | FirstbitSHi
  | IMax
  | IMin
  | UMax
  | UMin
  | IMul
  | UMul
  | UDiv
  | UAddc
  | USubb
  | IMad
  | UMad
  | Msad
  | Ibfe
  | Ubfe
  | Bfi
  | CreateHandle
  | CBufferLoad
  | CBufferLoadLegacy
  | TextureLoad
  | TextureStore
  | BufferLoad
  | BufferStore
  | BufferUpdateCounter
  | CheckAccessFullyMapped
  | GetDimensions
  | Texture2DMSGetSamplePosition
  | RenderTargetGetSamplePosition
  | RenderTargetGetSampleCount
  | AtomicBinOp
  | AtomicCompareExchange
  | Barrier
  | Discard
  | EvalSnapped
  | EvalCentroid
  | SampleIndex
  | Coverage
  | InnerCoverage
  | ThreadId
  | GroupId
  | ThreadIdInGroup
  | FlattenedThreadIdInGroup
  | EmitStream
  | CutStream
  | EmitThenCutStream
  | GSInstanceID
  | MakeDouble
  | SplitDouble
  | LoadOutputControlPoint
  | LoadPatchConstant
  | DomainLocation
  | StorePatchConstant
  | OutputControlPointID
  | PrimitiveID
  | CycleCounterLegacy
  | WaveIsFirstLane
  | WaveGetLaneIndex
  | WaveGetLaneCount
  | WaveAnyTrue
  | WaveAllTrue
  | WaveActiveAllEqual
  | WaveActiveBallot
  | WaveReadLaneAt
  | WaveReadLaneFirst
  | WaveActiveOp
  | WaveActiveBit
  | WavePrefixOp
  | QuadReadLaneAt
  | QuadOp
  | BitcastI16toF16
  | BitcastF16toI16
  | BitcastI32toF32
  | BitcastF32toI32
  | BitcastI64toF64
  | BitcastF64toI64
  | LegacyF32ToF16
  | LegacyF16ToF32
  | LegacyDoubleToFloat
  | LegacyDoubleToSInt32
  | LegacyDoubleToUInt32
  | WaveAllBitCount
  | WavePrefixBitCount
  | AttributeAtVertex
  | ViewID
  | RawBufferLoad
  | RawBufferStore
  | InstanceID
  | InstanceIndex
  | HitKind
  | RayFlags
  | DispatchRaysIndex
  | DispatchRaysDimensions
  | WorldRayOrigin
  | WorldRayDirection
  | ObjectRayOrigin
  | ObjectRayDirection
  | ObjectToWorld
  | WorldToObject
  | RayTMin
  | RayTCurrent
  | IgnoreHit
  | AcceptHitAndEndSearch
  | TraceRay
  | ReportHit
  | CallShader
  | CreateHandleForLib
  | PrimitiveIndex
  | Dot2AddHalf
  | Dot4AddI8Packed
  | Dot4AddU8Packed
  | WaveMatch
  | WaveMultiPrefixOp
  | WaveMultiPrefixBitCount
  | SetMeshOutputCounts
  | EmitIndices
  | GetMeshPayload
  | StoreVertexOutput
  | StorePrimitiveOutput
  | DispatchMesh
  | WriteSamplerFeedback
  | WriteSamplerFeedbackBias
  | WriteSamplerFeedbackLevel
  | WriteSamplerFeedbackGrad
  | AllocateRayQuery
  | RayQuery_TraceRayInline
  | RayQuery_Proceed
  | RayQuery_Abort
  | RayQuery_CommitNonOpaqueTriangleHit
  | RayQuery_CommitProceduralPrimitiveHit
  | RayQuery_CommittedStatus
  | RayQuery_CandidateType
  | RayQuery_CandidateObjectToWorld3x4
  | RayQuery_CandidateWorldToObject3x4
  | RayQuery_CommittedObjectToWorld3x4
  | RayQuery_CommittedWorldToObject3x4
  | RayQuery_CandidateProceduralPrimitiveNonOpaque
  | RayQuery_CandidateTriangleFrontFace
  | RayQuery_CommittedTriangleFrontFace
  | RayQuery_CandidateTriangleBarycentrics
  | RayQuery_CommittedTriangleBarycentrics
  | RayQuery_RayFlags
  | RayQuery_WorldRayOrigin
  | RayQuery_WorldRayDirection
  | RayQuery_RayTMin
  | RayQuery_CandidateTriangleRayT
  | RayQuery_CommittedRayT
  | RayQuery_CandidateInstanceIndex
  | RayQuery_CandidateInstanceID
  | RayQuery_CandidateGeometryIndex
  | RayQuery_CandidatePrimitiveIndex
  | RayQuery_CandidateObjectRayOrigin
  | RayQuery_CandidateObjectRayDirection
  | RayQuery_CommittedInstanceIndex
  | RayQuery_CommittedInstanceID
  | RayQuery_CommittedGeometryIndex
  | RayQuery_CommittedPrimitiveIndex
  | RayQuery_CommittedObjectRayOrigin
  | RayQuery_CommittedObjectRayDirection
  | GeometryIndex
  | RayQuery_CandidateInstanceContributionToHitGroupIndex
  | RayQuery_CommittedInstanceContributionToHitGroupIndex
  | AnnotateHandle
  | CreateHandleFromBinding
  | CreateHandleFromHeap
  | Unpack4x8
  | Pack4x8
  | IsHelperLane
  | QuadVote
  | TextureStoreSample
  | WaveMatrix_Annotate
  | WaveMatrix_Depth
  | WaveMatrix_Fill
  | WaveMatrix_LoadRawBuf
  | WaveMatrix_LoadGroupShared
  | WaveMatrix_StoreRawBuf
  | WaveMatrix_StoreGroupShared
  | WaveMatrix_Multiply
  | WaveMatrix_MultiplyAccumulate
  | WaveMatrix_ScalarOp
  | WaveMatrix_SumAccumulate
  | WaveMatrix_Add
  | AllocateNodeOutputRecords
  | GetNodeRecordPtr
  | IncrementOutputCount
  | OutputComplete
  | GetInputRecordCount
  | FinishedCrossGroupSharing
  | BarrierByMemoryType
  | BarrierByMemoryHandle
  | BarrierByNodeRecordHandle
  | CreateNodeOutputHandle
  | IndexNodeHandle
  | AnnotateNodeHandle
  | CreateNodeInputRecordHandle
  | AnnotateNodeRecordHandle
  | NodeOutputIsValid
  | GetRemainingRecursionLevels
  | StartVertexLocation
  | StartInstanceLocation
  | NumOpCodes
  deriving DecidableEq, Repr

/-- The per-DXOp denormal-flushing table: the `switch(dxOpCode)` inside
`OperationFlushing` (dxil_debug.cpp:133-403).  Sample/gather, LOD/derivative
and float mathematical intrinsics flush; everything else does not.
The `NumOpCodes` arm is unreachable there (guarded by the enclosing `if`). -/
def DXOpFlushing : DXOp → Bool
  | .Sample => true
  | .SampleBias => true
  | .SampleLevel => true
  | .SampleGrad => true
  | .SampleCmp => true
  | .SampleCmpBias => true
  | .SampleCmpLevel => true
  | .SampleCmpGrad => true
  | .SampleCmpLevelZero => true
  | .TextureGather => true
  | .TextureGatherCmp => true
  | .TextureGatherRaw => true
  | .CalculateLOD => true
  | .DerivCoarseX => true
  | .DerivCoarseY => true
  | .DerivFineX => true
  | .DerivFineY => true
  | .EvalSampleIndex => true
  | .FAbs => true
  | .Cos => true
  | .Sin => true
  | .Tan => true
  | .Acos => true
  | .Asin => true
  | .Atan => true
  | .Hcos => true
  | .Hsin => true
  | .Htan => true
  | .Exp => true
  | .Frc => true
  | .Log => true
  | .Sqrt => true
  | .Rsqrt => true
  | .Round_ne => true
  | .Round_ni => true
  | .Round_pi => true
  | .Round_z => true
  | .FMax => true
  | .FMin => true
  | .FMad => true
  | .Fma => true
  | .Dot2 => true
  | .Dot3 => true
  | .Dot4 => true
  | .TempRegLoad => false
  | .TempRegStore => false
  | .MinPrecXRegLoad => false
  | .MinPrecXRegStore => false
  | .LoadInput => false
  | .StoreOutput => false
  | .Saturate => false
  | .IsNaN => false
  | .IsInf => false
  | .IsFinite => false
  | .IsNormal => false
  | .Bfrev => false
  | .Countbits => false
  | .FirstbitLo => false
  | .FirstbitHi => false
  | .FirstbitSHi => false
  | .IMax => false
  | .IMin => false
  | .UMax => false
  | .UMin => false
  | .IMul => false
  | .UMul => false
  | .UDiv => false
  | .UAddc => false
  | .USubb => false
  | .IMad => false
  | .UMad => false
  | .Msad => false
  | .Ibfe => false
  | .Ubfe => false
  | .Bfi => false
  | .CreateHandle => false
  | .CBufferLoad => false
  | .CBufferLoadLegacy => false
  | .TextureLoad => false
  | .TextureStore => false
  | .BufferLoad => false
  | .BufferStore => false
  | .BufferUpdateCounter => false
  | .CheckAccessFullyMapped => false
  | .GetDimensions => false
  | .Texture2DMSGetSamplePosition => false
  | .RenderTargetGetSamplePosition => false
  | .RenderTargetGetSampleCount => false
  | .AtomicBinOp => false
  | .AtomicCompareExchange => false
  | .Barrier => false
  | .Discard => false
  | .EvalSnapped => false
  | .EvalCentroid => false
  | .SampleIndex => false
  | .Coverage => false
  | .InnerCoverage => false
  | .ThreadId => false
  | .GroupId => false
  | .ThreadIdInGroup => false
  | .FlattenedThreadIdInGroup => false
  | .EmitStream => false
  | .CutStream => false
  | .EmitThenCutStream => false
  | .GSInstanceID => false
  | .MakeDouble => false
  | .SplitDouble => false
  | .LoadOutputControlPoint => false
  | .LoadPatchConstant => false
  | .DomainLocation => false
  | .StorePatchConstant => false
  | .OutputControlPointID => false
  | .PrimitiveID => false
  | .CycleCounterLegacy => false
  | .WaveIsFirstLane => false
  | .WaveGetLaneIndex => false
  | .WaveGetLaneCount => false
  | .WaveAnyTrue => false
  | .WaveAllTrue => false
  | .WaveActiveAllEqual => false
  | .WaveActiveBallot => false
  | .WaveReadLaneAt => false
  | .WaveReadLaneFirst => false
  | .WaveActiveOp => false
  | .WaveActiveBit => false
  | .WavePrefixOp => false
  | .QuadReadLaneAt => false
  | .QuadOp => false
  | .BitcastI16toF16 => false
  | .BitcastF16toI16 => false
  | .BitcastI32toF32 => false
  | .BitcastF32toI32 => false
  | .BitcastI64toF64 => false
  | .BitcastF64toI64 => false
  | .LegacyF32ToF16 => false
  | .LegacyF16ToF32 => false
  | .LegacyDoubleToFloat => false
  | .LegacyDoubleToSInt32 => false
  | .LegacyDoubleToUInt32 => false
  | .WaveAllBitCount => false
  | .WavePrefixBitCount => false
  | .AttributeAtVertex => false
  | .ViewID => false
  | .RawBufferLoad => false
  | .RawBufferStore => false
  | .InstanceID => false
  | .InstanceIndex => false
  | .HitKind => false
  | .RayFlags => false
  | .DispatchRaysIndex => false
  | .DispatchRaysDimensions => false
  | .WorldRayOrigin => false
  | .WorldRayDirection => false
  | .ObjectRayOrigin => false
  | .ObjectRayDirection => false
  | .ObjectToWorld => false
  | .WorldToObject => false
  | .RayTMin => false
  | .RayTCurrent => false
  | .IgnoreHit => false
  | .AcceptHitAndEndSearch => false
  | .TraceRay => false
  | .ReportHit => false
  | .CallShader => false
  | .CreateHandleForLib => false
  | .PrimitiveIndex => false
  | .Dot2AddHalf => false
  | .Dot4AddI8Packed => false
  | .Dot4AddU8Packed => false
  | .WaveMatch => false
  | .WaveMultiPrefixOp => false
  | .WaveMultiPrefixBitCount => false
  | .SetMeshOutputCounts => false
  | .EmitIndices => false
  | .GetMeshPayload => false
  | .StoreVertexOutput => false
  | .StorePrimitiveOutput => false
  | .DispatchMesh => false
  | .WriteSamplerFeedback => false
  | .WriteSamplerFeedbackBias => false
  | .WriteSamplerFeedbackLevel => false
  | .WriteSamplerFeedbackGrad => false
  | .AllocateRayQuery => false
  | .RayQuery_TraceRayInline => false
  | .RayQuery_Proceed => false
  | .RayQuery_Abort => false
  | .RayQuery_CommitNonOpaqueTriangleHit => false
  | .RayQuery_CommitProceduralPrimitiveHit => false
  | .RayQuery_CommittedStatus => false
  | .RayQuery_CandidateType => false
  | .RayQuery_CandidateObjectToWorld3x4 => false
  | .RayQuery_CandidateWorldToObject3x4 => false
  | .RayQuery_CommittedObjectToWorld3x4 => false
  | .RayQuery_CommittedWorldToObject3x4 => false
  | .RayQuery_CandidateProceduralPrimitiveNonOpaque => false
  | .RayQuery_CandidateTriangleFrontFace => false
  | .RayQuery_CommittedTriangleFrontFace => false
  | .RayQuery_CandidateTriangleBarycentrics => false
  | .RayQuery_CommittedTriangleBarycentrics => false
  | .RayQuery_RayFlags => false
  | .RayQuery_WorldRayOrigin => false
  | .RayQuery_WorldRayDirection => false
  | .RayQuery_RayTMin => false
  | .RayQuery_CandidateTriangleRayT => false
  | .RayQuery_CommittedRayT => false
  | .RayQuery_CandidateInstanceIndex => false
  | .RayQuery_CandidateInstanceID => false
  | .RayQuery_CandidateGeometryIndex => false
  | .RayQuery_CandidatePrimitiveIndex => false
  | .RayQuery_CandidateObjectRayOrigin => false
  | .RayQuery_CandidateObjectRayDirection => false
  | .RayQuery_CommittedInstanceIndex => false
  | .RayQuery_CommittedInstanceID => false
  | .RayQuery_CommittedGeometryIndex => false
  | .RayQuery_CommittedPrimitiveIndex => false
  | .RayQuery_CommittedObjectRayOrigin => false
  | .RayQuery_CommittedObjectRayDirection => false
  | .GeometryIndex => false
  | .RayQuery_CandidateInstanceContributionToHitGroupIndex => false
  | .RayQuery_CommittedInstanceContributionToHitGroupIndex => false
  | .AnnotateHandle => false
  | .CreateHandleFromBinding => false
  | .CreateHandleFromHeap => false
  | .Unpack4x8 => false
  | .Pack4x8 => false
  | .IsHelperLane => false
  | .QuadVote => false
  | .TextureStoreSample => false
  | .WaveMatrix_Annotate => false
  | .WaveMatrix_Depth => false
  | .WaveMatrix_Fill => false
  | .WaveMatrix_LoadRawBuf => false
  | .WaveMatrix_LoadGroupShared => false
  | .WaveMatrix_StoreRawBuf => false
  | .WaveMatrix_StoreGroupShared => false
  | .WaveMatrix_Multiply => false
  | .WaveMatrix_MultiplyAccumulate => false
  | .WaveMatrix_ScalarOp => false
  | .WaveMatrix_SumAccumulate => false
  | .WaveMatrix_Add => false
  | .AllocateNodeOutputRecords => false
  | .GetNodeRecordPtr => false
  | .IncrementOutputCount => false
  | .OutputComplete => false
  | .GetInputRecordCount => false
  | .FinishedCrossGroupSharing => false
  | .BarrierByMemoryType => false
  | .BarrierByMemoryHandle => false
  | .BarrierByNodeRecordHandle => false
  | .CreateNodeOutputHandle => false
  | .IndexNodeHandle => false
  | .AnnotateNodeHandle => false
  | .CreateNodeInputRecordHandle => false
  | .AnnotateNodeRecordHandle => false
  | .NodeOutputIsValid => false
  | .GetRemainingRecursionLevels => false
  | .StartVertexLocation => false
  | .StartInstanceLocation => false
  | .NumOpCodes => false

/-- The per-LLVM-opcode denormal-flushing table: the `switch(op)` in
`OperationFlushing` (dxil_debug.cpp:406-509).  Float arithmetic and all
float comparisons flush; casts, integer operations, conversions, memory and
control-flow operations do not. -/
def LLVMOpFlushing : Operation → Bool
  | .FAdd => true
  | .FSub => true
  | .FMul => true
  | .FDiv => true
  | .FRem => true
  | .FPTrunc => true
  | .FPExt => true
  | .FOrdFalse => true
  | .FOrdEqual => true
  | .FOrdGreater => true
  | .FOrdGreaterEqual => true
  | .FOrdLess => true
  | .FOrdLessEqual => true
  | .FOrdNotEqual => true
  | .FOrd => true
  | .FUnord => true
  | .FUnordEqual => true
  | .FUnordGreater => true
  | .FUnordGreaterEqual => true
  | .FUnordLess => true
  | .FUnordLessEqual => true
  | .FUnordNotEqual => true
  | .FOrdTrue => true
  | .Trunc => false
  | .SExt => false
  | .ZExt => false
  | .PtrToI => false
  | .IToPtr => false
  | .Bitcast => false
  | .AddrSpaceCast => false
  | .IEqual => false
  | .INotEqual => false
  | .UGreater => false
  | .UGreaterEqual => false
  | .ULess => false
  | .ULessEqual => false
  | .SGreater => false
  | .SGreaterEqual => false
  | .SLess => false
  | .SLessEqual => false
  | .FToU => false
  | .FToS => false
  | .UToF => false
  | .SToF => false
  | .NoOp => false
  | .Call => false
  | .ExtractVal => false
  | .Ret => false
  | .Unreachable => false
  | .Alloca => false
  | .GetElementPtr => false
  | .Branch => false
  | .Fence => false
  | .Switch => false
  | .Load => false
  | .Store => false
  | .Select => false
  | .ExtractElement => false
  | .InsertElement => false
  | .ShuffleVector => false
  | .InsertValue => false
  | .Phi => false
  | .CompareExchange => false
  | .Add => false
  | .Sub => false
  | .Mul => false
  | .UDiv => false
  | .SDiv => false
  | .URem => false
  | .SRem => false
  | .ShiftLeft => false
  | .LogicalShiftRight => false
  | .ArithShiftRight => false
  | .And => false
  | .Or => false
  | .Xor => false
  | .LoadAtomic => false
  | .StoreAtomic => false
  | .AtomicExchange => false
  | .AtomicAdd => false
  | .AtomicSub => false
  | .AtomicAnd => false
  | .AtomicNand => false
  | .AtomicOr => false
  | .AtomicXor => false
  | .AtomicMax => false
  | .AtomicMin => false
  | .AtomicUMax => false
  | .AtomicUMin => false

/-- Function `OperationFlushing(op, dxOpCode)` (dxil_debug.cpp:127-512): whether an
operation flushes float32 denormals.  A DXOp call (`dxOpCode` not equal to
`NumOpCodes`) is decided by the DXOp table; otherwise the LLVM opcode table
decides. -/
def OperationFlushing (op : Operation) (dxOpCode : DXOp) : Bool :=
  match dxOpCode with
  | .NumOpCodes => LLVMOpFlushing op
  | d => DXOpFlushing d

/-- Shader value scalar kinds: the VarType enumeration as consumed by the
interpreter (see GetElementByteSize, dxil_debug.cpp:561-587). -/
inductive VarType where
  | SLong
  | ULong
  | Double
  | SInt
  | UInt
  | Float
  | SShort
  | UShort
  | Half
  | SByte
  | UByte
  | Bool
  | Enum
  | Struct
  | GPUPointer
  | ConstantBlock
  | ReadOnlyResource
  | ReadWriteResource
  | Sampler
  | Unknown
  deriving DecidableEq, Repr

/-- Semantic model of an IEEE-754 binary32 value, as far as the
interpreter's comparison and flushing behaviour is concerned: NaN, a signed
infinity (`inf true` is negative infinity), or a finite value represented
exactly as a rational.  The sign of zero is not tracked; it is irrelevant to
the properties below. -/
inductive F32 where
  | nan : F32
  | inf : Bool -> F32
  | fin : Rat -> F32
  deriving DecidableEq

/-- A finite float32 is subnormal when it is nonzero and its magnitude is
below the smallest positive normal value 2^(-126). -/
def isDenormQ (q : Rat) : Bool := decide (q ≠ 0 ∧ |q| < 1 / 2 ^ 126)

/-- Modelled from the spec: `flush_denorm` (declared at dx_debug.h:152, its
definition lives outside the provided sources) — the spec glossary defines a
denormal flush as "replacing a subnormal float with zero to match hardware
FTZ behavior".  NaN and infinities are unaffected. -/
def flush_denorm : F32 → F32
  | .fin q => if isDenormQ q then .fin 0 else .fin q
  | x => x

/-- RDCISFINITE: true exactly for finite values (not NaN, not infinite). -/
def F32.isFinite : F32 → Bool
  | .fin _ => true
  | _ => false

/-- RDCISNAN. -/
def F32.isNaN : F32 → Bool
  | .nan => true
  | _ => false

/-- C++ `==` on float operands (IEEE quiet equality): false whenever either
operand is NaN. -/
def F32.cppEq : F32 → F32 → Bool
  | .fin a, .fin b => a == b
  | .inf s, .inf t => s == t
  | _, _ => false

/-- C++ `<` on float operands: false whenever either operand is NaN. -/
def F32.cppLt : F32 → F32 → Bool
  | .fin a, .fin b => decide (a < b)
  | .fin _, .inf s => !s
  | .inf s, .fin _ => s
  | .inf s, .inf t => s && !t
  | _, _ => false

/-- C++ `<=` on float operands: false whenever either operand is NaN. -/
def F32.cppLe : F32 → F32 → Bool
  | .fin a, .fin b => decide (a ≤ b)
  | .fin _, .inf s => !s
  | .inf s, .fin _ => s
  | .inf s, .inf t => s || !t
  | _, _ => false

/-- C++ `!=` on float operands is the negation of `==`, hence it is TRUE
whenever either operand is NaN (the unordered-or-not-equal predicate). -/
def F32.cppNe (a b : F32) : Bool := !F32.cppEq a b

/-- C++ `>` on float operands. -/
def F32.cppGt (a b : F32) : Bool := F32.cppLt b a

/-- C++ `>=` on float operands. -/
def F32.cppGe (a b : F32) : Bool := F32.cppLe b a

/-- A typed scalar slot: the `type` field of a ShaderVariable together with
the semantic value of the scalar component the interpreter operates on
(`value.f32v[0]`, resp. the corresponding half/double component). -/
structure TypedVal where
  ty : VarType
  v : F32
  deriving DecidableEq

/-- `ThreadState::GetVariableHelper` (dxil_debug.cpp:5759-5770), applied to
every operand fetched from the live value table (and, with the same guards,
to constants in `GetShaderVariableHelper`, dxil_debug.cpp:5582-5605): flush
the float32 component when the opcode's table entry says so; never for
`Double` or `Half` typed variables. -/
def GetVariableHelper (op : Operation) (dxOpCode : DXOp) (var : TypedVal) : TypedVal :=
  let flushDenorm := OperationFlushing op dxOpCode
  let flushDenorm := if var.ty = VarType.Double then false else flushDenorm
  let flushDenorm := if var.ty = VarType.Half then false else flushDenorm
  if flushDenorm then { var with v := flush_denorm var.v } else var

/-- `AssignValue(result, src, flushDenorm)` (dxil_debug.cpp:529-559): copy
the source component, reporting `GeneratedNanOrInf` for a non-finite
`Float`/`Double` source; when asked to flush, only a `Float` result is
flushed (a `Double` is logged as unhandled and left unchanged).  Returns the
committed component together with the event flag. -/
def AssignValue (ty : VarType) (src : F32) (flushDenorm : Bool) : F32 × Bool :=
  let flags := (ty == VarType.Float || ty == VarType.Double) && !src.isFinite
  let outV := src
  let outV := if flushDenorm then
      (if ty == VarType.Float then flush_denorm src else outV)
    else outV
  (outV, flags)

/-- `ThreadState::SetResult` (dxil_debug.cpp:5772-5792), the value part: the
result committed at the end of `ExecuteInstruction` is flushed exactly when
the opcode's table entry says so and the result type is `Float`; the flag
returned by `AssignValue` is ORed into the step's
`ShaderDebugState::flags`. -/
def SetResult (op : Operation) (dxOpCode : DXOp) (var : TypedVal) : TypedVal × Bool :=
  let flushDenorm := OperationFlushing op dxOpCode && (var.ty == VarType.Float)
  let vf := AssignValue var.ty var.v flushDenorm
  ({ var with v := vf.1 }, vf.2)

/-- The floating-point comparison case of `ThreadState::ExecuteInstruction`
(dxil_debug.cpp:4626-4775), transcribed per opcode: the value written to the
Bool result's `u32v[0]`.  Returns `none` for opcodes this case does not
handle. -/
def FCmpExec (op : Operation) (a b : F32) : Option Nat :=
  match op with
  | .FOrdFalse => some 0
  | .FOrdTrue => some 1
  | .FOrdEqual => some (if F32.cppEq a b then 1 else 0)
  | .FOrdGreater => some (if F32.cppGt a b then 1 else 0)
  | .FOrdGreaterEqual => some (if F32.cppGe a b then 1 else 0)
  | .FOrdLess => some (if F32.cppLt a b then 1 else 0)
  | .FOrdLessEqual => some (if F32.cppLe a b then 1 else 0)
  | .FOrdNotEqual => some (if F32.cppNe a b then 1 else 0)
  | .FOrd => some (if !a.isNaN && !b.isNaN then 1 else 0)
  | .FUnord => some (if a.isNaN || b.isNaN then 1 else 0)
  | .FUnordEqual => some (if F32.cppNe a b then 0 else 1)
  | .FUnordGreater => some (if F32.cppLe a b then 0 else 1)
  | .FUnordGreaterEqual => some (if F32.cppLt a b then 0 else 1)
  | .FUnordLess => some (if F32.cppGe a b then 0 else 1)
  | .FUnordLessEqual => some (if F32.cppGt a b then 0 else 1)
  | .FUnordNotEqual => some (if F32.cppEq a b then 0 else 1)
  | _ => none

/-- Reinterpret a 32-bit unsigned value as a signed int32 (two's
complement), i.e. the C++ `comp<int32_t>` view of the value union. -/
def toS32 (x : Nat) : Int := if x < 2 ^ 31 then (x : Int) else (x : Int) - 2 ^ 32

/-- Store a signed value back into its 32-bit two's complement bits. -/
def ofS32 (i : Int) : Nat := (i % 2 ^ 32).toNat

/-- The `DXOp::UDiv` branch (dxil_debug.cpp:2958-2972): 32-bit unsigned
divide with the two result components `(destQUOT, destREM)` and the
`GeneratedNanOrInf` event flag.  For a zero divisor both components are
0xffffffff and the flag is raised. -/
def DXOpUDiv (a b : Nat) : Nat × Nat × Bool :=
  if b ≠ 0 then
    let q := a / b
    (q, a - q * b, false)
  else
    (0xffffffff, 0xffffffff, true)

/-- The step record produced for the observed lane: the committed result
components and the step's accumulated event flags (the GeneratedNanOrInf
bit; `SetResult` does `m_State->flags |= flags`, dxil_debug.cpp:5787). -/
structure StepRecord where
  flags : Bool
  u32v0 : Nat
  u32v1 : Nat
  deriving DecidableEq, Repr

/-- Executing and committing a `DXOp::UDiv` instruction on the observed lane,
starting from the step's current flags. -/
def ExecDXOpUDivStep (stateFlags : Bool) (a b : Nat) : StepRecord :=
  let qre := DXOpUDiv a b
  { flags := stateFlags || qre.2.2, u32v0 := qre.1, u32v1 := qre.2.1 }

/-- The LLVM integer divide/remainder case (dxil_debug.cpp:4516-4561) at
32-bit width, over the u32 bit patterns of the two operands.  `UDiv`/`SDiv`
guard the zero divisor and produce sentinel quotient 0 together with the
`GeneratedNanOrInf` event flag; `URem`/`SRem` apply the C++ `%` operator
unguarded, so a zero divisor is undefined behaviour (modelled as `none`), as
is the overflowing `INT_MIN` divided (or remaindered) by `-1`. -/
def ExecIntDivRem (op : Operation) (a b : Nat) : Option (Nat × Bool) :=
  match op with
  | .UDiv => if b ≠ 0 then some (a / b, false) else some (0, true)
  | .SDiv =>
      if toS32 b ≠ 0 then
        if toS32 a = -(2 ^ 31) ∧ toS32 b = -1 then none
        else some (ofS32 (Int.tdiv (toS32 a) (toS32 b)), false)
      else some (0, true)
  | .URem => if b ≠ 0 then some (a % b, false) else none
  | .SRem =>
      if toS32 b ≠ 0 then
        if toS32 a = -(2 ^ 31) ∧ toS32 b = -1 then none
        else some (ofS32 (Int.tmod (toS32 a) (toS32 b)), false)
      else none
  | _ => none

/-- RDCMIN on int32 operands. -/
def RDCMINs (a b : Int) : Int := if a < b then a else b

/-- RDCMAX on int32 operands. -/
def RDCMAXs (a b : Int) : Int := if a > b then a else b

/-- RDCMIN on uint32 operands. -/
def RDCMINu (a b : Nat) : Nat := if a < b then a else b

/-- RDCMAX on uint32 operands. -/
def RDCMAXu (a b : Nat) : Nat := if a > b then a else b

/-- The `DXOp::IMin`/`DXOp::IMax` case body (dxil_debug.cpp:2653-2669):
signed 32-bit min/max, each assignment guarded by an opcode test; the case
ends WITHOUT a `break`. -/
def ExecIMinIMaxBlock (dxOpCode : DXOp) (a b r : Nat) : Nat :=
  if dxOpCode = DXOp.IMin then ofS32 (RDCMINs (toS32 a) (toS32 b))
  else if dxOpCode = DXOp.IMax then ofS32 (RDCMAXs (toS32 a) (toS32 b))
  else r

/-- The `DXOp::UMin`/`DXOp::UMax` case body (dxil_debug.cpp:2670-2687):
unsigned 32-bit min/max, each assignment guarded by an opcode test, ending
in `break`. -/
def ExecUMinUMaxBlock (dxOpCode : DXOp) (a b r : Nat) : Nat :=
  if dxOpCode = DXOp.UMin then RDCMINu a b
  else if dxOpCode = DXOp.UMax then RDCMAXu a b
  else r

/-- The combined control flow of the two case labels: for `IMin`/`IMax` the
first block executes and then falls through into the `UMin`/`UMax` block;
for `UMin`/`UMax` only the second block executes.  `result.value` starts
zeroed (dxil_debug.cpp:1746-1749). -/
def ExecMinMaxCase (dxOpCode : DXOp) (a b : Nat) : Option Nat :=
  match dxOpCode with
  | .IMin => some (ExecUMinUMaxBlock .IMin a b (ExecIMinIMaxBlock .IMin a b 0))
  | .IMax => some (ExecUMinUMaxBlock .IMax a b (ExecIMinIMaxBlock .IMax a b 0))
  | .UMin => some (ExecUMinUMaxBlock .UMin a b 0)
  | .UMax => some (ExecUMinUMaxBlock .UMax a b 0)
  | _ => none

/-- The 8-bit SNorm decode of `TypedUAVLoad` (dxil_debug.cpp:1297-1309):
code -128 maps to -1, every other code c maps to c/127; the float32
division `float(c) / 127.0f` is exact at the endpoint codes, so the decode
is modelled by exact rationals. -/
def TypedUAVLoadSNorm8 (c : Int) : Rat :=
  if c = -128 then -1 else (c : Rat) / 127

/-- The 16-bit SNorm decode of `TypedUAVLoad` (dxil_debug.cpp:1256-1268):
code -32768 maps to -1, every other code c maps to c/32767. -/
def TypedUAVLoadSNorm16 (c : Int) : Rat :=
  if c = -32768 then -1 else (c : Rat) / 32767


/-- SSA identifiers. -/
abbrev Id := Nat

/-- The slice of `FunctionInfo` needed by `JumpToBlock`:
`phiReferencedIdsPerBlock` maps an incoming-block id to the SSA ids
referenced by phi instructions under that incoming block label (built at
dxil_debug.cpp:8043-8062), plus the function's block count. -/
structure PhiFunctionInfo where
  phiReferencedIdsPerBlock : Nat → List Id
  numBlocks : Nat

/-- The slice of `ThreadState` the jump/phi machinery touches: the live
value table `m_Variables` (field `vars`), the snapshot `m_PhiVariables`, and the
previous/current block ids.  Values are modelled by `Nat`. -/
structure PhiThreadState where
  vars : Id → Nat
  phiVariables : List (Id × Nat)
  previousBlock : Nat
  block : Nat

/-- `ThreadState::JumpToBlock` (dxil_debug.cpp:1659-1705), the phi-relevant
part: remember the previous block, clear `m_PhiVariables` and re-fill it
with the current live value of every id that some phi references with the
previous block's label, then move to the target block (failing when the
target block id is out of range).  The divergence bookkeeping of the source
is independent of the phi snapshot and is omitted here. -/
def JumpToBlock (fi : PhiFunctionInfo) (s : PhiThreadState) (target : Nat) :
    Option PhiThreadState :=
  let prev := s.block
  let phiVars := (fi.phiReferencedIdsPerBlock prev).map (fun i => (i, s.vars i))
  if target < fi.numBlocks then
    some { vars := s.vars, phiVariables := phiVars,
           previousBlock := prev, block := target }
  else none

/-- A phi argument: an SSA instruction reference (resolved through the
snapshot) or a constant/literal (carried directly). -/
inductive PhiArg where
  | instr (slot : Id)
  | constant (v : Nat)
  deriving DecidableEq

/-- `ThreadState::GetPhiVariable` (dxil_debug.cpp:5747-5757): look the id up
in `m_PhiVariables` only — never in the live table `m_Variables`. -/
def GetPhiVariable (s : PhiThreadState) (i : Id) : Option Nat :=
  (s.phiVariables.find? (fun p => p.1 == i)).map (fun p => p.2)

/-- `GetPhiShaderVariable` as dispatched by `GetShaderVariableHelper` with
isLive = false (dxil_debug.cpp:5686-5692): constants resolve directly,
instruction references resolve through `GetPhiVariable`. -/
def GetPhiShaderVariable (s : PhiThreadState) (a : PhiArg) : Option Nat :=
  match a with
  | .constant v => some v
  | .instr slot => GetPhiVariable s slot

/-- The `Operation::Phi` case (dxil_debug.cpp:4217-4247): scan the
(value, label) pairs for the first pair whose label equals `m_PreviousBlock`
and resolve that value via `GetPhiShaderVariable`. -/
def ExecPhi (s : PhiThreadState) (incoming : List (PhiArg × Nat)) : Option Nat :=
  match incoming.find? (fun p => p.2 == s.previousBlock) with
  | some av => GetPhiShaderVariable s av.1
  | none => none

/-- The `~0U` sentinel marking a missing quad neighbour. -/
def QUAD_SENTINEL : Nat := 0xffffffff

/-- The per-lane state consulted by the derivative helpers: the lane's
current block and active global instruction index, whether it has
`Finished()`, and the value `GetShaderVariable` yields on that lane for the
operand of the derivative (an SInt/Float component, modelled as `Int`). -/
structure QuadLane where
  block : Nat
  activeIdx : Nat
  finished : Bool
  operandValue : Int
  deriving DecidableEq, Repr

/-- The scanning loop of `ThreadState::QuadIsDiverged`
(dxil_debug.cpp:6416-6446); `acc` mirrors the `block0`/`instr0` locals
(holding the execution point of the first counted lane). -/
def quadScan (wg : List QuadLane) : List Nat → Option (Nat × Nat) → Bool
  | [], _ => false
  | i :: rest, acc =>
      if i = QUAD_SENTINEL then quadScan wg rest acc
      else
        let lane := wg.getD i ⟨0, 0, true, 0⟩
        if lane.finished then quadScan wg rest acc
        else
          match acc with
          | none => quadScan wg rest (some (lane.block, lane.activeIdx))
          | some bi =>
              if lane.block ≠ bi.1 then true
              else if lane.activeIdx ≠ bi.2 then true
              else quadScan wg rest acc

/-- `ThreadState::QuadIsDiverged` over the four quad-neighbour slots. -/
def QuadIsDiverged (wg : List QuadLane) (qn : Nat → Nat) : Bool :=
  quadScan wg [qn 0, qn 1, qn 2, qn 3] none

/-- `ThreadState::DDX` (dxil_debug.cpp:6295-6337): with any quad-neighbour
slot missing (the ~0 sentinel) an error is logged and the zeroed result is
returned; otherwise the horizontal difference of the operand between the
right and the left lane of the selected row is computed.  The divergence
check is only an assertion (it reports and continues), so a diverged quad
does not alter the computation. -/
def DDX (fine : Bool) (wg : List QuadLane) (qn : Nat → Nat) (quadLaneIndex : Nat) : Int :=
  if qn 0 = QUAD_SENTINEL ∨ qn 1 = QUAD_SENTINEL ∨ qn 2 = QUAD_SENTINEL ∨
      qn 3 = QUAD_SENTINEL then 0
  else
    let index := if !fine then 0
      else if quadLaneIndex % 2 = 0 then quadLaneIndex
      else quadLaneIndex - 1
    let a := (wg.getD (qn (index + 1)) ⟨0, 0, true, 0⟩).operandValue
    let b := (wg.getD (qn index) ⟨0, 0, true, 0⟩).operandValue
    a - b

/-- `ThreadState::DDY` (dxil_debug.cpp:6339-6381), the vertical analogue of
`DDX`. -/
def DDY (fine : Bool) (wg : List QuadLane) (qn : Nat → Nat) (quadLaneIndex : Nat) : Int :=
  if qn 0 = QUAD_SENTINEL ∨ qn 1 = QUAD_SENTINEL ∨ qn 2 = QUAD_SENTINEL ∨
      qn 3 = QUAD_SENTINEL then 0
  else
    let index := if !fine then 0
      else if quadLaneIndex < 2 then quadLaneIndex
      else quadLaneIndex - 2
    let a := (wg.getD (qn (index + 2)) ⟨0, 0, true, 0⟩).operandValue
    let b := (wg.getD (qn index) ⟨0, 0, true, 0⟩).operandValue
    a - b

/-- One outer iteration of the `ContinueDebug` stepping loop, abstracted to
what the step budget depends on: whether the observed lane was stepped in
its (unique) alive-active tangle this iteration, whether the observed lane
is `Finished()` afterwards, and whether any thread in any tangle was active
(when none is, the loop kills the observed lane so that the next condition
check terminates, dxil_debug.cpp:8777-8782). -/
structure IterOutcome where
  observedStepped : Bool
  observedFinishedAfter : Bool
  anyActiveThreads : Bool

/-- The loop-relevant slice of the Debugger state: `m_Steps`, whether the
observed lane is `Finished()`, and the number of `ShaderDebugState` records
accumulated in `ret`. -/
structure DebugLoopState where
  steps : Nat
  activeFinished : Bool
  retLen : Nat
  deriving DecidableEq, Repr

/-- Effect of one outer loop iteration: `m_Steps` increments exactly when
the observed lane was stepped (dxil_debug.cpp:8715-8721), in which case its
`ShaderDebugState` record is pushed; the observed lane counts as finished
when it ended or when no thread anywhere was active. -/
def stepIter (o : IterOutcome) (s : DebugLoopState) : DebugLoopState :=
  { steps := s.steps + (if o.observedStepped then 1 else 0),
    activeFinished := o.observedFinishedAfter || !o.anyActiveThreads,
    retLen := s.retLen + (if o.observedStepped then 1 else 0) }

/-- The stepping loop `for(int stepEnd = m_Steps + 100; m_Steps < stepEnd;)`
(dxil_debug.cpp:8654-8784) with its `if(active.Finished()) break` head.  The
iteration schedule is supplied as a list; exhausting the list stops the
recursion, a modelling artefact that only ever stops the loop EARLIER, so
the step-budget bound is unaffected by it. -/
def continueLoop (stepEnd : Nat) : List IterOutcome → DebugLoopState → DebugLoopState
  | [], s => s
  | o :: rest, s =>
      if s.steps < stepEnd then
        if s.activeFinished then s
        else continueLoop stepEnd rest (stepIter o s)
      else s

/-- `Debugger::ContinueDebug` (dxil_debug.cpp:8591-8786): the first call
performs the entry seeding (pushing one initial record and doing one
`m_Steps++`, dxil_debug.cpp:8598-8646), then — unless the observed lane has
already finished — runs the stepping loop with the budget
`stepEnd = m_Steps + 100` computed AFTER the seeding. -/
def ContinueDebug (sched : List IterOutcome) (s0 : DebugLoopState) : DebugLoopState :=
  let s := if s0.steps = 0 then { s0 with steps := s0.steps + 1, retLen := s0.retLen + 1 }
    else s0
  if s.activeFinished then s
  else continueLoop (s.steps + 100) sched s

namespace Mem

/-- `GetElementByteSize` (dxil_debug.cpp:561-587): byte width of the scalar
kinds; aggregate/opaque kinds are logged as unhandled and report 0. -/
def GetElementByteSize : VarType → Nat
  | .SLong | .ULong | .Double => 8
  | .SInt | .UInt | .Float => 4
  | .SShort | .UShort | .Half => 2
  | .SByte | .UByte => 1
  | _ => 0

/-- A ShaderVariable as the memory subsystem sees it: scalar kind, shape
(rows × columns), the raw `value` union as a byte list (64 bytes), and the
ordered `members`. -/
inductive SVar : Type where
  | mk : VarType → Nat → Nat → List Nat → List SVar → SVar

/-- The `type` field. -/
def SVar.ty : SVar → VarType
  | .mk t _ _ _ _ => t

/-- The `rows` field. -/
def SVar.rows : SVar → Nat
  | .mk _ r _ _ _ => r

/-- The `columns` field. -/
def SVar.columns : SVar → Nat
  | .mk _ _ c _ _ => c

/-- The raw `value` union bytes. -/
def SVar.value : SVar → List Nat
  | .mk _ _ _ v _ => v

/-- The `members` list. -/
def SVar.members : SVar → List SVar
  | .mk _ _ _ _ m => m

/-- Replace the `value` union of a variable. -/
def SVar.withValue : SVar → List Nat → SVar
  | .mk t r c _ m, v => .mk t r c v m

/-- memcpy of `src` into `mem` starting at byte offset `off`. -/
def writeBytes (mem : List Nat) (off : Nat) (src : List Nat) : List Nat :=
  match src with
  | [] => mem
  | b :: rest => writeBytes (mem.set off b) (off + 1) rest

/-- Read `n` bytes from `mem` at offset `off`. -/
def readBytes (mem : List Nat) (off n : Nat) : List Nat :=
  match n with
  | 0 => []
  | m + 1 => mem.getD off 0 :: readBytes mem (off + 1) m

mutual

/-- `ThreadState::UpdateBackingMemoryFromVariable`
(dxil_debug.cpp:5837-5862): copy a variable tree into backing memory at
`off`.  A leaf writes `columns * GetElementByteSize(type)` bytes of its
value union and decrements the remaining allocation size; an aggregate
writes each member at consecutive offsets advanced by that member's own
width. -/
def UpdateBackingMemoryFromVariable (mem : List Nat) (off allocSize : Nat) :
    SVar → List Nat × Nat
  | .mk ty _ cols value [] =>
      let varMemSize := cols * GetElementByteSize ty
      (writeBytes mem off (value.take varMemSize), allocSize - varMemSize)
  | .mk _ _ _ _ (m :: ms) =>
      UpdateBackingMembers mem off allocSize (m :: ms)

/-- The member loop of `UpdateBackingMemoryFromVariable`. -/
def UpdateBackingMembers (mem : List Nat) (off allocSize : Nat) :
    List SVar → List Nat × Nat
  | [] => (mem, allocSize)
  | m :: ms =>
      let ma := UpdateBackingMemoryFromVariable mem off allocSize m
      let adv := m.columns * GetElementByteSize m.ty
      UpdateBackingMembers ma.1 (off + adv) ma.2 ms

end

/-- `ThreadState::UpdateMemoryVariableFromBackingMemory`
(dxil_debug.cpp:5864-5892): refresh the base variable from backing memory.
The source computes ONE `elementSize` from the BASE variable's type and
copies that many bytes per member (so for a `Struct`-typed base variable
the element size is 0 and the members are not actually refreshed); the copy
is skipped with an error when it would exceed the 64-byte value union. -/
def UpdateMemoryVariableFromBackingMemory (baseMemory : SVar) (mem : List Nat) : SVar :=
  let elementSize := GetElementByteSize baseMemory.ty
  match baseMemory with
  | .mk ty r c value [] =>
      if elementSize ≤ 64 then
        .mk ty r c (readBytes mem 0 elementSize ++ value.drop elementSize) []
      else .mk ty r c value []
  | .mk ty r c value ms =>
      .mk ty r c value (ms.enum.map (fun im =>
        if elementSize ≤ 64 then
          im.2.withValue
            (readBytes mem (im.1 * elementSize) elementSize ++ im.2.value.drop elementSize)
        else im.2))

/-- `MemoryTracking::Pointer`: the raw interior address is modelled as the
owning allocation id plus a byte offset into its backing memory (the
self-pointer created by `AllocateMemoryForType` has offset 0,
dxil_debug.cpp:1496-1497). -/
structure Pointer where
  baseMemoryId : Nat
  offset : Nat
  size : Nat

/-- `MemoryTracking::Allocation`. -/
structure Alloc where
  backingMemory : List Nat
  size : Nat
  global : Bool

/-- A before/after pair pushed to the observed lane's
`ShaderDebugState::changes`. -/
structure Change where
  before : SVar
  after : SVar

/-- The slice of `ThreadState` exercised by the Load/Store cases: the value
table `m_Variables` (field `vars`) with its assigned/live flag arrays, the memory arena (pointers and
allocations), and the observed lane's accumulating change list.  `observed`
is `m_State != NULL`. -/
structure ExecState where
  vars : Nat → SVar
  assigned : Nat → Bool
  live : Nat → Bool
  pointers : Nat → Option Pointer
  allocations : Nat → Option Alloc
  changes : List Change
  observed : Bool

/-- Pointwise function update (the effect of `map[k] = v`). -/
def updateFn {α : Type} (f : Nat → α) (k : Nat) (v : α) : Nat → α :=
  fun i => if i = k then v else f i

/-- Little-endian u32 view of the first four bytes of a value union. -/
def u32FromBytes (v : List Nat) : Nat :=
  v.getD 0 0 + 256 * v.getD 1 0 + 65536 * v.getD 2 0 + 16777216 * v.getD 3 0

/-- Little-endian bytes of a u32. -/
def u32ToBytes (x : Nat) : List Nat :=
  [x % 256, x / 256 % 256, x / 65536 % 256, x / 16777216 % 256]

/-- Little-endian u64 view of the first eight bytes of a value union. -/
def u64FromBytes (v : List Nat) : Nat :=
  u32FromBytes v + 4294967296 * u32FromBytes (v.drop 4)

/-- Modelled from the spec: the bit-level effect of `flush_denorm` on the
`value.f32v[0]` bytes — when the eight exponent bits (bits 30..23) are all
zero the value is subnormal (or zero) and is replaced by the zero of the
same sign. -/
def flushDenormBytes (v : List Nat) : List Nat :=
  let bits := u32FromBytes v
  if bits / 8388608 % 256 = 0 then
    writeBytes v 0 (u32ToBytes (bits / 2147483648 * 2147483648))
  else v

/-- Byte-level `AssignValue` (dxil_debug.cpp:529-559): the event flag checks
whether a `Float` (resp. `Double`) component is non-finite, i.e. has an
all-ones exponent field; flushing applies only to a `Float`. -/
def AssignValueB (ty : VarType) (v : List Nat) (flushDenorm : Bool) : List Nat × Bool :=
  let flags :=
    if ty == VarType.Float then decide (u32FromBytes v / 8388608 % 256 = 255)
    else if ty == VarType.Double then
      decide (u64FromBytes v / 4503599627370496 % 2048 = 2047)
    else false
  let outV := if flushDenorm then
      (if ty == VarType.Float then flushDenormBytes v else v)
    else v
  (outV, flags)

/-- Byte-level `GetVariableHelper` (dxil_debug.cpp:5759-5770), applied to an
operand fetched from the live value table. -/
def GetVariableHelperB (op : Operation) (dxOpCode : DXOp) (var : SVar) : SVar :=
  let flushDenorm := OperationFlushing op dxOpCode
  let flushDenorm := if var.ty = VarType.Double then false else flushDenorm
  let flushDenorm := if var.ty = VarType.Half then false else flushDenorm
  if flushDenorm then var.withValue (flushDenormBytes var.value) else var

/-- The result-commit tail of `ExecuteInstruction` (dxil_debug.cpp:5492-5511)
together with `SetResult` (dxil_debug.cpp:5772-5792): flush/flag the result
via `AssignValue`, push the before/after change when the lane is observed,
then store the result into the value table and mark it live and assigned. -/
def commitResult (op : Operation) (dxOpCode : DXOp) (s : ExecState) (resultId : Nat)
    (result : SVar) : ExecState :=
  let flushDenorm := OperationFlushing op dxOpCode && (result.ty == VarType.Float)
  let vf := AssignValueB result.ty result.value flushDenorm
  let result := result.withValue vf.1
  let changes := if s.observed then s.changes ++ [⟨s.vars resultId, result⟩]
    else s.changes
  { s with vars := updateFn s.vars resultId result,
           live := updateFn s.live resultId true,
           assigned := updateFn s.assigned resultId true,
           changes := changes }

/-- The `Operation::Store` case (dxil_debug.cpp:4330-4383) followed by the
result commit: write the value into backing memory through the pointer,
record the before/after change of the allocation's base variable
(re-synchronised from backing memory), then commit the pointer variable —
now carrying the stored value union — as the instruction result
(`resultId = ptrId`), which appends the second change record via
`SetResult`.  The early-error paths (unknown pointer or allocation) leave
the state unchanged. -/
def execStore (s : ExecState) (ptrId : Nat) (val : SVar) : ExecState :=
  match s.pointers ptrId with
  | none => s
  | some ptr =>
    match s.allocations ptr.baseMemoryId with
    | none => s
    | some alloc =>
      let memA := UpdateBackingMemoryFromVariable alloc.backingMemory ptr.offset ptr.size val
      let alloc1 : Alloc := { alloc with backingMemory := memA.1 }
      let before := s.vars ptr.baseMemoryId
      let baseVar :=
        UpdateMemoryVariableFromBackingMemory (s.vars ptr.baseMemoryId) alloc1.backingMemory
      let s1 : ExecState := { s with
        vars := updateFn s.vars ptr.baseMemoryId baseVar,
        allocations := updateFn s.allocations ptr.baseMemoryId (some alloc1),
        changes := if s.observed then s.changes ++ [⟨before, baseVar⟩] else s.changes }
      let result := (s1.vars ptrId).withValue val.value
      commitResult .Store .NumOpCodes s1 ptrId result

/-- The `Operation::Load` case (dxil_debug.cpp:4292-4329) followed by the
result commit: resolve the pointer, fetch the pointer variable through
`GetVariableHelper` (for an unassigned pointer into a global allocation the
base variable is fetched instead), build the result of the declared return
type carrying the fetched value union, and commit it under the load's own
result id. -/
def execLoad (s : ExecState) (ptrId : Nat) (resultId : Nat) (retTy : VarType) : ExecState :=
  match s.pointers ptrId with
  | none => s
  | some ptr =>
    match s.allocations ptr.baseMemoryId with
    | none => s
    | some alloc =>
      let arg := if alloc.global && !(s.assigned ptrId) then s.vars ptr.baseMemoryId
        else GetVariableHelperB .Load .NumOpCodes (s.vars ptrId)
      let result := SVar.mk retTy 1 1 arg.value []
      commitResult .Load .NumOpCodes s resultId result

end Mem


/-- A concrete four-lane workgroup whose quad is diverged: lane 1 sits in a
different block (and instruction) from lanes 0, 2 and 3, and carries
operand value 1 while lane 0 carries 0. -/
def divergedQuadWG : List QuadLane :=
  [⟨0, 0, false, 0⟩, ⟨1, 7, false, 1⟩, ⟨0, 0, false, 0⟩, ⟨0, 0, false, 0⟩]

namespace Mem

/-- A demonstration base variable: a 4-byte SInt scalar (zeroed union). -/
def demoVar : SVar := SVar.mk VarType.SInt 1 1 (List.replicate 64 0) []

/-- A demonstration observed-lane state holding one 4-byte stack allocation
at id 0 with its self-pointer, as created by `Operation::Alloca`. -/
def demoState : ExecState where
  vars := fun _ => demoVar
  assigned := fun _ => true
  live := fun _ => true
  pointers := fun i => if i = 0 then some ⟨0, 0, 4⟩ else none
  allocations := fun i => if i = 0 then some ⟨List.replicate 4 0, 4, false⟩ else none
  changes := []
  observed := true

/-- A struct-typed value to store, carrying its components in the value
union (the shape struct-returning intrinsics produce). -/
def demoVal : SVar := SVar.mk VarType.Struct 1 1 (5 :: 6 :: List.replicate 62 0) []

end Mem


/-! ## Helper lemmas -/

/-- Looking up an id in a snapshot built by mapping a capture function over
an id list returns the captured value, whenever the id occurs in the list. -/
theorem find_map_snapshot (l : List Id) (f : Id → Nat) (i : Id) (h : i ∈ l) :
    ((l.map (fun j => (j, f j))).find? (fun p => p.1 == i)).map (fun p => p.2)
      = some (f i) := by
  induction l with
  | nil => cases h
  | cons a t ih =>
      by_cases ha : a = i
      · subst ha
        rw [List.map_cons, List.find?_cons_of_pos _ (by simp)]
        simp
      · rw [List.map_cons, List.find?_cons_of_neg _ (by simp [ha])]
        exact ih (by
          rcases List.mem_cons.mp h with h1 | h2
          · exact absurd h1.symm ha
          · exact h2)

/-! ## C1 -/

/-- C1: after a jump from block P into the current block, a phi instruction
whose incoming list pins SSA value `i` to P resolves `i` from the snapshot
`m_PhiVariables` captured by `JumpToBlock` at the moment of the jump: its
result is the value `i` had when the jump was taken, for EVERY later state
`vars1` of the live value table (so live overwrites cannot leak in). -/
theorem phi_uses_blockentry_snapshot
    (fi : PhiFunctionInfo) (s : PhiThreadState) (target : Nat) (s1 : PhiThreadState)
    (hjump : JumpToBlock fi s target = some s1)
    (vars1 : Id → Nat)
    (incoming : List (PhiArg × Nat)) (i : Id)
    (hsel : incoming.find? (fun p => p.2 == s1.previousBlock)
        = some (PhiArg.instr i, s.block))
    (href : i ∈ fi.phiReferencedIdsPerBlock s.block) :
    ExecPhi { s1 with vars := vars1 } incoming = some (s.vars i) := by
  unfold JumpToBlock at hjump
  by_cases ht : target < fi.numBlocks
  · simp only [ht, if_true] at hjump
    obtain rfl : _ = s1 := Option.some_injective _ hjump
    simp only [ExecPhi, hsel, GetPhiShaderVariable, GetPhiVariable]
    exact find_map_snapshot _ _ _ href
  · simp [ht] at hjump

/-- Witness for C1: a concrete two-block function where block 0's live value
of id 7 is 71 at the jump; afterwards the whole live table is overwritten
with 999, yet the phi still yields 71. -/
theorem phi_uses_blockentry_snapshot_witness :
    ExecPhi ⟨(fun _ => 999), [(7, 71)], 0, 1⟩ [(PhiArg.instr 7, 0)] = some 71 :=
  phi_uses_blockentry_snapshot
    ⟨fun b => if b = 0 then [7] else [], 2⟩
    ⟨fun i => i * 10 + 1, [], 0, 0⟩ 1
    ⟨fun i => i * 10 + 1, [(7, 71)], 0, 1⟩
    rfl (fun _ => 999) [(PhiArg.instr 7, 0)] 7 rfl (by simp)

/-! ## C2 -/

/-- C2: for every opcode pair flagged as flushing by `OperationFlushing`, a
subnormal float32 operand is fetched flushed to zero (so the operation
computes on the flushed operand) and a subnormal float32 result is
committed as zero by `SetResult`; a `Half`- or `Double`-typed value is never
flushed on fetch or on commit, regardless of opcode. -/
theorem denorm_flush_law (op : Operation) (dxOpCode : DXOp) :
    (OperationFlushing op dxOpCode = true → ∀ q : Rat, isDenormQ q = true →
      GetVariableHelper op dxOpCode ⟨VarType.Float, F32.fin q⟩
          = ⟨VarType.Float, F32.fin 0⟩ ∧
      (SetResult op dxOpCode ⟨VarType.Float, F32.fin q⟩).1
          = ⟨VarType.Float, F32.fin 0⟩) ∧
    (∀ x : F32,
      GetVariableHelper op dxOpCode ⟨VarType.Half, x⟩ = ⟨VarType.Half, x⟩ ∧
      GetVariableHelper op dxOpCode ⟨VarType.Double, x⟩ = ⟨VarType.Double, x⟩ ∧
      (SetResult op dxOpCode ⟨VarType.Half, x⟩).1 = ⟨VarType.Half, x⟩ ∧
      (SetResult op dxOpCode ⟨VarType.Double, x⟩).1 = ⟨VarType.Double, x⟩) := by
  constructor
  · intro hf q hq
    constructor
    · simp [GetVariableHelper, hf, flush_denorm, hq]
    · simp [SetResult, AssignValue, hf, flush_denorm, hq]
  · intro x
    refine ⟨?_, ?_, ?_, ?_⟩
    · simp [GetVariableHelper]
    · simp [GetVariableHelper]
    · simp [SetResult, AssignValue]
    · simp [SetResult, AssignValue]

/-- The rational 2^(-130) is a subnormal float32 magnitude. -/
theorem isDenormQ_pow130 : isDenormQ (1 / 2 ^ 130) = true := by
  unfold isDenormQ
  rw [decide_eq_true_eq]
  constructor
  · norm_num
  · rw [abs_of_pos (by norm_num)]
    rw [div_lt_div_iff₀ (by positivity) (by positivity)]
    norm_num

/-- Witness for C2: `FAdd` (an LLVM float operation) flushes; the subnormal
2^(-130) is fetched and committed as zero, while the same value typed as
`Half` or `Double` passes through unflushed. -/
theorem denorm_flush_law_witness :
    OperationFlushing Operation.FAdd DXOp.NumOpCodes = true ∧
    isDenormQ (1 / 2 ^ 130) = true ∧
    GetVariableHelper Operation.FAdd DXOp.NumOpCodes ⟨VarType.Float, F32.fin (1 / 2 ^ 130)⟩
        = ⟨VarType.Float, F32.fin 0⟩ ∧
    (SetResult Operation.FAdd DXOp.NumOpCodes ⟨VarType.Float, F32.fin (1 / 2 ^ 130)⟩).1
        = ⟨VarType.Float, F32.fin 0⟩ ∧
    GetVariableHelper Operation.FAdd DXOp.NumOpCodes ⟨VarType.Double, F32.fin (1 / 2 ^ 130)⟩
        = ⟨VarType.Double, F32.fin (1 / 2 ^ 130)⟩ :=
  ⟨rfl, isDenormQ_pow130,
    ((denorm_flush_law Operation.FAdd DXOp.NumOpCodes).1 rfl (1 / 2 ^ 130) isDenormQ_pow130).1,
    ((denorm_flush_law Operation.FAdd DXOp.NumOpCodes).1 rfl (1 / 2 ^ 130) isDenormQ_pow130).2,
    (((denorm_flush_law Operation.FAdd DXOp.NumOpCodes).2 (F32.fin (1 / 2 ^ 130))).2.1)⟩


/-! ## C3 -/

/-- C3: executing the DXOp UDiv intrinsic with divisor 0 commits quotient
0xFFFFFFFF in the first result component and remainder 0xFFFFFFFF in the
second, and raises GeneratedNanOrInf in the step's ShaderDebugState flags —
for every 32-bit dividend `a` and any prior flag state. -/
theorem dxop_udiv_by_zero (a : Nat) (stateFlags : Bool) :
    ExecDXOpUDivStep stateFlags a 0 =
      { flags := true, u32v0 := 0xffffffff, u32v1 := 0xffffffff } := by
  simp [ExecDXOpUDivStep, DXOpUDiv]

/-! ## C4 -/

/-- C4: the interpreter computes FUnordEqual by inverting the C++ `!=`
comparison; since `!=` is itself an unordered predicate (true on NaN),
FUnordEqual yields 0 — not the claimed 1 — on a NaN operand.  The other six
unordered comparisons do yield 1 on a NaN operand. -/
theorem funord_equal_nan_yields_zero :
    FCmpExec Operation.FUnordEqual F32.nan (F32.fin 0) = some 0 ∧
    FCmpExec Operation.FUnord F32.nan (F32.fin 0) = some 1 ∧
    FCmpExec Operation.FUnordGreater F32.nan (F32.fin 0) = some 1 ∧
    FCmpExec Operation.FUnordGreaterEqual F32.nan (F32.fin 0) = some 1 ∧
    FCmpExec Operation.FUnordLess F32.nan (F32.fin 0) = some 1 ∧
    FCmpExec Operation.FUnordLessEqual F32.nan (F32.fin 0) = some 1 ∧
    FCmpExec Operation.FUnordNotEqual F32.nan (F32.fin 0) = some 1 := by
  refine ⟨?_, ?_, ?_, ?_, ?_, ?_, ?_⟩ <;> rfl

/-! ## C5 -/

/-- C5: LLVM URem and SRem with divisor 0 execute the C++ `%` operator
unguarded — undefined behaviour (`none`: in practice a hardware divide
trap), with no sentinel and no event flag — while the guarded UDiv and SDiv
cases do produce the sentinel 0 together with the GeneratedNanOrInf flag. -/
theorem urem_srem_by_zero_undefined :
    ExecIntDivRem Operation.URem 1 0 = none ∧
    ExecIntDivRem Operation.SRem 1 0 = none ∧
    ExecIntDivRem Operation.UDiv 1 0 = some (0, true) ∧
    ExecIntDivRem Operation.SDiv 1 0 = some (0, true) := by
  refine ⟨rfl, ?_, rfl, ?_⟩ <;> simp [ExecIntDivRem, toS32]

/-! ## C7 -/

/-- C7: SNorm decoding maps the most negative code exactly to -1 and the
most positive code exactly to 1: 8-bit code -128 decodes to -1, code 127
decodes to 1, every other code c decodes to c/127; 16-bit code -32768
decodes to -1. -/
theorem snorm_decode_boundary :
    TypedUAVLoadSNorm8 (-128) = -1 ∧
    TypedUAVLoadSNorm8 127 = 1 ∧
    (∀ c : Int, c ≠ -128 → TypedUAVLoadSNorm8 c = (c : Rat) / 127) ∧
    TypedUAVLoadSNorm16 (-32768) = -1 := by
  refine ⟨rfl, by norm_num [TypedUAVLoadSNorm8], ?_, rfl⟩
  intro c hc
  simp [TypedUAVLoadSNorm8, hc]

/-- Witness for C7: code 64 decodes to 64/127. -/
theorem snorm_decode_boundary_witness :
    TypedUAVLoadSNorm8 64 = (64 : Rat) / 127 :=
  snorm_decode_boundary.2.2.1 64 (by decide)

/-! ## C9 -/

/-- RDCMIN on Int agrees with `min`. -/
theorem RDCMINs_eq_min (a b : Int) : RDCMINs a b = min a b := by
  unfold RDCMINs
  rcases lt_or_ge a b with h | h
  · rw [if_pos h, min_eq_left h.le]
  · rw [if_neg (not_lt.mpr h), min_eq_right h]

/-- RDCMAX on Int agrees with `max`. -/
theorem RDCMAXs_eq_max (a b : Int) : RDCMAXs a b = max a b := by
  unfold RDCMAXs
  rcases lt_or_ge b a with h | h
  · rw [if_pos h, max_eq_left h.le]
  · rw [if_neg (not_lt.mpr h), max_eq_right h]

/-- C9: the IMin/IMax case falls through (no break) into the UMin/UMax
case, but the unsigned assignments there are guarded by opcode tests that
cannot fire for IMin/IMax, so the committed result is still the signed
32-bit minimum resp. maximum of the two operands. -/
theorem imin_imax_fallthrough_correct (a b : Nat) (_ha : a < 2 ^ 32) (_hb : b < 2 ^ 32) :
    ExecMinMaxCase DXOp.IMin a b = some (ofS32 (min (toS32 a) (toS32 b))) ∧
    ExecMinMaxCase DXOp.IMax a b = some (ofS32 (max (toS32 a) (toS32 b))) ∧
    (∀ r, ExecUMinUMaxBlock DXOp.IMin a b r = r) ∧
    (∀ r, ExecUMinUMaxBlock DXOp.IMax a b r = r) := by
  refine ⟨?_, ?_, ?_, ?_⟩
  · simp [ExecMinMaxCase, ExecUMinUMaxBlock, ExecIMinIMaxBlock, RDCMINs_eq_min]
  · simp [ExecMinMaxCase, ExecUMinUMaxBlock, ExecIMinIMaxBlock, RDCMAXs_eq_max]
  · intro r; simp [ExecUMinUMaxBlock]
  · intro r; simp [ExecUMinUMaxBlock]

/-- Witness for C9: IMin of 5 and 0xffffffff (signed -1) is -1, committed as
bits 0xffffffff; IMax picks 5. -/
theorem imin_imax_fallthrough_correct_witness :
    5 < 2 ^ 32 ∧ 4294967295 < 2 ^ 32 ∧
    ExecMinMaxCase DXOp.IMin 5 4294967295 = some 4294967295 ∧
    ExecMinMaxCase DXOp.IMax 5 4294967295 = some 5 :=
  ⟨by norm_num, by norm_num,
    (imin_imax_fallthrough_correct 5 4294967295 (by norm_num) (by norm_num)).1,
    (imin_imax_fallthrough_correct 5 4294967295 (by norm_num) (by norm_num)).2.1⟩

/-! ## C10 -/

/-- The stepping loop never pushes `m_Steps` beyond `stepEnd`. -/
theorem continueLoop_le (sched : List IterOutcome) (stepEnd : Nat) :
    ∀ s : DebugLoopState, s.steps ≤ stepEnd →
      (continueLoop stepEnd sched s).steps ≤ stepEnd := by
  induction sched with
  | nil => intro s hs; exact hs
  | cons o rest ih =>
      intro s hs
      unfold continueLoop
      by_cases hlt : s.steps < stepEnd
      · rw [if_pos hlt]
        by_cases hfin : s.activeFinished
        · rw [if_pos hfin]; exact hs
        · rw [if_neg hfin]
          refine ih _ ?_
          unfold stepIter
          rcases o.observedStepped with _ | _ <;> simp <;> omega
      · rw [if_neg hlt]; exact hs

/-- C10: a single `ContinueDebug` call steps the observed lane at most 100
times: on a non-first call `m_Steps` grows by at most 100, and on the first
call by at most 101 (the extra increment is the entry seeding, which pushes
the initial record without executing an instruction).  The loop simply
stops when the budget is exhausted — with the lane possibly unfinished —
and the record list is returned normally. -/
theorem continuedebug_step_budget (sched : List IterOutcome) (s0 : DebugLoopState) :
    (ContinueDebug sched s0).steps ≤ s0.steps + 101 ∧
    (s0.steps ≠ 0 → (ContinueDebug sched s0).steps ≤ s0.steps + 100) := by
  have key : ∀ s1 : DebugLoopState,
      (if s1.activeFinished = true then s1 else continueLoop (s1.steps + 100) sched s1).steps
        ≤ s1.steps + 100 := by
    intro s1
    by_cases hfin : s1.activeFinished = true
    · rw [if_pos hfin]; omega
    · rw [if_neg hfin]
      exact continueLoop_le sched (s1.steps + 100) s1 (by omega)
  constructor
  · unfold ContinueDebug
    by_cases h0 : s0.steps = 0
    · simp only [h0, if_pos]
      have := key { s0 with steps := s0.steps + 1, retLen := s0.retLen + 1 }
      simp only [h0] at this
      omega
    · simp only [h0, if_neg, if_false]
      have := key s0
      omega
  · intro h0
    unfold ContinueDebug
    simp only [h0, if_neg, if_false]
    have := key s0
    omega

/-- Witness for C10: a non-first call (`m_Steps = 5`) with a three-iteration
schedule stays within the 100-step budget. -/
theorem continuedebug_step_budget_witness :
    (5 : Nat) ≠ 0 ∧
    (ContinueDebug [⟨true, false, true⟩, ⟨true, false, true⟩, ⟨true, true, true⟩]
        ⟨5, false, 0⟩).steps ≤ 105 :=
  ⟨by decide,
    (continuedebug_step_budget
      [⟨true, false, true⟩, ⟨true, false, true⟩, ⟨true, true, true⟩]
      ⟨5, false, 0⟩).2 (by decide)⟩


/-! ## C8 -/

/-- C8 (counterexample to zeroing on divergence): the quad over lanes 0..3
is diverged (lane 1 is at a different execution point), yet DerivCoarseX at
lane 0 still computes the nonzero operand difference of lanes 1 and 0 — the
result is not zeroed; the condition is only reported by assertion. -/
theorem derivative_diverged_not_zeroed :
    QuadIsDiverged divergedQuadWG (fun i => i) = true ∧
    DDX false divergedQuadWG (fun i => i) 0 = 1 := by
  refine ⟨by decide, by decide⟩

/-- C8 (amended): a lane with an incomplete quad (some neighbour slot holds
the ~0 sentinel) receives the zeroed result from DDX and DDY after the
error report; with a complete quad the coarse horizontal derivative is
always the operand difference of the top-right and top-left quad lanes —
whether or not the quad is diverged. -/
theorem derivative_incomplete_quad_zeroed
    (wg : List QuadLane) (qn : Nat → Nat) (qli : Nat) (fine : Bool) :
    ((qn 0 = QUAD_SENTINEL ∨ qn 1 = QUAD_SENTINEL ∨ qn 2 = QUAD_SENTINEL ∨
        qn 3 = QUAD_SENTINEL) →
      DDX fine wg qn qli = 0 ∧ DDY fine wg qn qli = 0) ∧
    (qn 0 ≠ QUAD_SENTINEL → qn 1 ≠ QUAD_SENTINEL → qn 2 ≠ QUAD_SENTINEL →
      qn 3 ≠ QUAD_SENTINEL →
      DDX false wg qn qli =
        (wg.getD (qn 1) ⟨0, 0, true, 0⟩).operandValue -
          (wg.getD (qn 0) ⟨0, 0, true, 0⟩).operandValue) := by
  constructor
  · intro h
    constructor
    · unfold DDX; rw [if_pos h]
    · unfold DDY; rw [if_pos h]
  · intro h0 h1 h2 h3
    unfold DDX
    rw [if_neg (by tauto)]
    simp

/-- Witness for C8: a quad missing its fourth neighbour yields 0; the
complete (but diverged) demonstration quad yields lane1 - lane0 = 1. -/
theorem derivative_incomplete_quad_zeroed_witness :
    ((fun i => if i = 3 then QUAD_SENTINEL else i) 3 = QUAD_SENTINEL) ∧
    DDX false divergedQuadWG (fun i => if i = 3 then QUAD_SENTINEL else i) 0 = 0 ∧
    DDX false divergedQuadWG (fun i => i) 0 =
      (divergedQuadWG.getD 1 ⟨0, 0, true, 0⟩).operandValue -
        (divergedQuadWG.getD 0 ⟨0, 0, true, 0⟩).operandValue :=
  ⟨rfl,
    ((derivative_incomplete_quad_zeroed divergedQuadWG
        (fun i => if i = 3 then QUAD_SENTINEL else i) 0 false).1
      (by right; right; right; rfl)).1,
    (derivative_incomplete_quad_zeroed divergedQuadWG (fun i => i) 0 false).2
      (by decide) (by decide) (by decide) (by decide)⟩

/-! ## C6 -/

namespace Mem

/-- Projection of `withValue`. -/
theorem SVar.value_withValue (v : SVar) (x : List Nat) : (v.withValue x).value = x := by
  cases v; rfl

/-- Type is preserved by `withValue`. -/
theorem SVar.ty_withValue (v : SVar) (x : List Nat) : (v.withValue x).ty = v.ty := by
  cases v; rfl

/-- Projection of the constructor. -/
theorem SVar.value_mk (t : VarType) (r c : Nat) (v : List Nat) (m : List SVar) :
    (SVar.mk t r c v m).value = v := rfl

/-- C6 (counterexample to "exactly one change record per store"): the
demonstration store on the observed lane appends TWO change records (one
for the allocation's base variable, one for the pointer result variable). -/
theorem store_single_change_counterexample :
    (execStore demoState 0 demoVal).changes.length = 2 := by
  simp [execStore, demoState, commitResult, updateFn, AssignValueB, OperationFlushing,
    LLVMOpFlushing]

/-- C6 (amended): storing a value through a pointer into an allocation and
loading it back through the same pointer with no intervening writes yields
exactly the stored value union — equal in every component — and each
observed store appends exactly TWO before/after change records (the
allocation's base variable and the pointer result variable), not one. -/
theorem store_load_roundtrip (s : ExecState) (ptrId loadId : Nat) (val : SVar)
    (retTy : VarType) (ptr : Pointer) (alloc : Alloc)
    (hobs : s.observed = true)
    (hptr : s.pointers ptrId = some ptr)
    (halloc : s.allocations ptr.baseMemoryId = some alloc) :
    ((execLoad (execStore s ptrId val) ptrId loadId retTy).vars loadId).value = val.value ∧
    (execStore s ptrId val).changes.length = s.changes.length + 2 := by
  constructor
  · simp only [execStore, hptr, halloc]
    simp only [execLoad, execStore, commitResult, updateFn, GetVariableHelperB,
      OperationFlushing, LLVMOpFlushing, AssignValueB, SVar.value_withValue,
      SVar.ty_withValue, hobs, hptr, halloc]
    simp [updateFn, SVar.value_withValue, SVar.value_mk]
  · simp only [execStore, hptr, halloc, commitResult, hobs]
    simp [AssignValueB]

end Mem

/-- Witness for C6 (amended): the demonstration store/load round trip
returns the stored union and produces exactly two change records. -/
theorem store_load_roundtrip_witness :
    Mem.demoState.observed = true ∧
    Mem.demoState.pointers 0 = some ⟨0, 0, 4⟩ ∧
    Mem.demoState.allocations 0 = some ⟨List.replicate 4 0, 4, false⟩ ∧
    ((Mem.execLoad (Mem.execStore Mem.demoState 0 Mem.demoVal) 0 1
        VarType.Struct).vars 1).value = Mem.demoVal.value ∧
    (Mem.execStore Mem.demoState 0 Mem.demoVal).changes.length =
      Mem.demoState.changes.length + 2 :=
  ⟨rfl, rfl, rfl,
    (Mem.store_load_roundtrip Mem.demoState 0 1 Mem.demoVal VarType.Struct
      ⟨0, 0, 4⟩ ⟨List.replicate 4 0, 4, false⟩ rfl rfl rfl).1,
    (Mem.store_load_roundtrip Mem.demoState 0 1 Mem.demoVal VarType.Struct
      ⟨0, 0, 4⟩ ⟨List.replicate 4 0, 4, false⟩ rfl rfl rfl).2⟩


end DXILDebug
